import Mathlib

/-!
Shallow embedding of `backend/services/blockchain_service.py` from the
AcademiaVeritas repository, together with theorems settling the spec claims.

Python strings are modelled as `List Char`; `os.getenv` results as
`Option Str` fields of a `Config` record; the result dictionaries as
structures with `Option` fields (a missing dictionary key is `none`).
`hashlib.sha256` is embedded as a full executable SHA-256 over byte lists
(`List Nat`, each byte `< 256`), with words reduced mod 2^32.
-/

/-- Python `str`, modelled as a list of characters. -/
abbrev Str := List Char

/-- Reduce to a 32-bit word, as Python ints have no width but SHA-256 works mod 2^32. -/
def w32 (n : Nat) : Nat := n % 4294967296

/-- 32-bit right rotation (callers keep `x < 2^32`). -/
def rotr32 (k x : Nat) : Nat := w32 ((x >>> k) ||| (x <<< (32 - k)))

/-- SHA-256 Ch function: (x AND y) XOR (NOT x AND z) on 32-bit words. -/
def sha256ch (x y z : Nat) : Nat := (x &&& y) ^^^ ((x ^^^ 4294967295) &&& z)

/-- SHA-256 Maj function. -/
def sha256maj (x y z : Nat) : Nat := (x &&& y) ^^^ (x &&& z) ^^^ (y &&& z)

/-- SHA-256 big sigma 0 (on the `a` register). -/
def bigSigma0 (x : Nat) : Nat := rotr32 2 x ^^^ rotr32 13 x ^^^ rotr32 22 x

/-- SHA-256 big sigma 1 (on the `e` register). -/
def bigSigma1 (x : Nat) : Nat := rotr32 6 x ^^^ rotr32 11 x ^^^ rotr32 25 x

/-- SHA-256 small sigma 0 (message schedule). -/
def smallSigma0 (x : Nat) : Nat := rotr32 7 x ^^^ rotr32 18 x ^^^ (x >>> 3)

/-- SHA-256 small sigma 1 (message schedule). -/
def smallSigma1 (x : Nat) : Nat := rotr32 17 x ^^^ rotr32 19 x ^^^ (x >>> 10)

/-- The 64 SHA-256 round constants (FIPS 180-4, written in decimal). -/
def sha256K : List Nat :=
  [1116352408, 1899447441, 3049323471, 3921009573, 961987163, 1508970993,
   2453635748, 2870763221, 3624381080, 310598401, 607225278, 1426881987,
   1925078388, 2162078206, 2614888103, 3248222580, 3835390401, 4022224774,
   264347078, 604807628, 770255983, 1249150122, 1555081692, 1996064986,
   2554220882, 2821834349, 2952996808, 3210313671, 3336571891, 3584528711,
   113926993, 338241895, 666307205, 773529912, 1294757372, 1396182291,
   1695183700, 1986661051, 2177026350, 2456956037, 2730485921, 2820302411,
   3259730800, 3345764771, 3516065817, 3600352804, 4094571909, 275423344,
   430227734, 506948616, 659060556, 883997877, 958139571, 1322822218,
   1537002063, 1747873779, 1955562222, 2024104815, 2227730452, 2361852424,
   2428436474, 2756734187, 3204031479, 3329325298]

/-- The eight SHA-256 chaining words. -/
structure Sha256St where
  h0 : Nat
  h1 : Nat
  h2 : Nat
  h3 : Nat
  h4 : Nat
  h5 : Nat
  h6 : Nat
  h7 : Nat
deriving Repr, DecidableEq

/-- SHA-256 initial hash value (FIPS 180-4, written in decimal). -/
def sha256init : Sha256St :=
  ⟨1779033703, 3144134277, 1013904242, 2773480762,
   1359893119, 2600822924, 528734635, 1541459225⟩

/-- Big-endian 32-bit words from a byte list (groups of four). -/
def bytesToWords : List Nat → List Nat
  | a :: b :: c :: d :: rest => (a * 16777216 + b * 65536 + c * 256 + d) :: bytesToWords rest
  | _ => []

/-- Extend the 16 chunk words by `fuel` further schedule words. -/
def extendW (ws : List Nat) : Nat → List Nat
  | 0 => ws
  | k + 1 =>
    let n := ws.length
    let nw := w32 (ws.getD (n - 16) 0 + smallSigma0 (ws.getD (n - 15) 0) +
                   ws.getD (n - 7) 0 + smallSigma1 (ws.getD (n - 2) 0))
    extendW (ws ++ [nw]) k

/-- The eight working registers of the compression loop. -/
structure Regs where
  a : Nat
  b : Nat
  c : Nat
  d : Nat
  e : Nat
  f : Nat
  g : Nat
  h : Nat
deriving Repr, DecidableEq

/-- One SHA-256 compression round; `kw` is the pair (round constant, schedule word). -/
def sha256round (st : Regs) (kw : Nat × Nat) : Regs :=
  let t1 := w32 (st.h + bigSigma1 st.e + sha256ch st.e st.f st.g + kw.1 + kw.2)
  let t2 := w32 (bigSigma0 st.a + sha256maj st.a st.b st.c)
  ⟨w32 (t1 + t2), st.a, st.b, st.c, w32 (st.d + t1), st.e, st.f, st.g⟩

/-- Process one 64-byte chunk, updating the chaining state. -/
def processChunk (st : Sha256St) (chunk : List Nat) : Sha256St :=
  let ws := extendW (bytesToWords chunk) 48
  let r := (sha256K.zip ws).foldl sha256round ⟨st.h0, st.h1, st.h2, st.h3, st.h4, st.h5, st.h6, st.h7⟩
  ⟨w32 (st.h0 + r.a), w32 (st.h1 + r.b), w32 (st.h2 + r.c), w32 (st.h3 + r.d),
   w32 (st.h4 + r.e), w32 (st.h5 + r.f), w32 (st.h6 + r.g), w32 (st.h7 + r.h)⟩

/-- Big-endian eight-byte encoding of the 64-bit bit length. -/
def lenBytes8 (n : Nat) : List Nat :=
  [n / 72057594037927936 % 256, n / 281474976710656 % 256, n / 1099511627776 % 256,
   n / 4294967296 % 256, n / 16777216 % 256, n / 65536 % 256, n / 256 % 256, n % 256]

/-- SHA-256 padding: append 0x80, zeros to 56 mod 64, then the bit length. -/
def sha256pad (msg : List Nat) : List Nat :=
  let L := msg.length
  let k := (119 - L % 64) % 64
  msg ++ [128] ++ List.replicate k 0 ++ lenBytes8 (8 * L)

/-- Split a byte list into successive 64-byte chunks. -/
def chunks : List Nat → List (List Nat)
  | [] => []
  | x :: xs => ((x :: xs).take 64) :: chunks ((x :: xs).drop 64)
termination_by l => l.length
decreasing_by simp [List.length_drop]; omega

/-- Four big-endian bytes of a 32-bit word. -/
def wordBytes (w : Nat) : List Nat := [w / 16777216 % 256, w / 65536 % 256, w / 256 % 256, w % 256]

/-- Serialize the chaining state to the 32-byte digest. -/
def stateBytes (st : Sha256St) : List Nat :=
  wordBytes st.h0 ++ wordBytes st.h1 ++ wordBytes st.h2 ++ wordBytes st.h3 ++
  wordBytes st.h4 ++ wordBytes st.h5 ++ wordBytes st.h6 ++ wordBytes st.h7

/-- SHA-256 of a byte message, as the 32-byte digest (embeds Python `hashlib.sha256`). -/
def sha256 (msg : List Nat) : List Nat :=
  stateBytes ((chunks (sha256pad msg)).foldl processChunk sha256init)

/-- UTF-8 encoding of one character (Python `str.encode()` per character). -/
def utf8EncodeChar (c : Char) : List Nat :=
  let n := c.toNat
  if n < 128 then [n]
  else if n < 2048 then [192 + n / 64, 128 + n % 64]
  else if n < 65536 then [224 + n / 4096, 128 + n / 64 % 64, 128 + n % 64]
  else [240 + n / 262144, 128 + n / 4096 % 64, 128 + n / 64 % 64, 128 + n % 64]

/-- UTF-8 encoding of a string (Python `str.encode()`). -/
def utf8Encode (s : Str) : List Nat := (s.map utf8EncodeChar).flatten

/-- Lowercase hexadecimal digit for `n < 16` (as in Python `hexdigest`). -/
def hexDigitChar (n : Nat) : Char := if n < 10 then Char.ofNat (48 + n) else Char.ofNat (87 + n)

/-- Two lowercase hex characters of one byte. -/
def byteToHex (b : Nat) : List Char := [hexDigitChar (b / 16 % 16), hexDigitChar (b % 16)]

/-- Lowercase hex string of a byte list (Python `sha256(...).hexdigest()`). -/
def hexdigestL (bs : List Nat) : List Char := (bs.map byteToHex).flatten

/-- The environment the service reads at construction: `os.getenv('INFURA_API_KEY')`
and `os.getenv('SECRET_KEY', 'default')`. `none` models an unset variable. -/
structure Config where
  infura_api_key : Option Str
  secret_key : Option Str
deriving Repr, DecidableEq

/-- Python truthiness of an optional string: `None` and the empty string are falsy
(`if not self.infura_api_key`). -/
def truthy : Option Str → Bool
  | none => false
  | some s => !s.isEmpty

/-- Result dictionary of `store_certificate_hash`; keys absent from a branch are `none`. -/
structure StoreResult where
  success : Bool
  tx_hash : Option Str
  block_number : Option Nat
  gas_used : Option Nat
  message : Option Str
  error : Option Str
deriving Repr, DecidableEq

/-- Result dictionary of `verify_certificate_hash`; keys absent from a branch are `none`. -/
structure VerifyResult where
  verified : Bool
  tx_hash : Option Str
  block_number : Option Nat
  message : Option Str
  error : Option Str
deriving Repr, DecidableEq

/-- Python `s.startswith(p)`. -/
def startswith : Str → Str → Bool
  | _, [] => true
  | [], _ :: _ => false
  | c :: s, p :: ps => c == p && startswith s ps

/-- Embeds `BlockchainService._generate_mock_tx_hash`: a SHA-256 digest of
`f"{certificate_hash}_{institution_id}_{os.getenv('SECRET_KEY', 'default')}"`,
truncated to 40 hex characters and prefixed with `0x`. -/
def generate_mock_tx_hash (secret_key : Option Str) (certificate_hash : Str)
    (institution_id : Int) : Str :=
  let data := certificate_hash ++ "_".data ++ (toString institution_id).data ++ "_".data ++
              secret_key.getD "default".data
  "0x".data ++ (hexdigestL (sha256 (utf8Encode data))).take 40

/-- Embeds `BlockchainService._simulate_blockchain_verification`:
`len(certificate_hash) > 0 and certificate_hash.startswith('a')`. -/
def simulate_blockchain_verification (certificate_hash : Str) : Bool :=
  decide (certificate_hash.length > 0) && startswith certificate_hash "a".data

/-- Embeds `BlockchainService.store_certificate_hash`. The `try` body cannot raise
(it is a digest of pure string operations), so the `except` branch is unreachable
and not modelled. -/
def store_certificate_hash (cfg : Config) (certificate_hash : Str)
    (institution_id : Int) : StoreResult :=
  if !(truthy cfg.infura_api_key) then
    { success := false
      tx_hash := none
      block_number := none
      gas_used := none
      message := none
      error := some "Blockchain service not configured. INFURA_API_KEY is missing.".data }
  else
    let mock_tx_hash := generate_mock_tx_hash cfg.secret_key certificate_hash institution_id
    { success := true
      tx_hash := some mock_tx_hash
      block_number := some 12345678
      gas_used := some 21000
      message := some "Certificate hash stored on blockchain successfully".data
      error := none }

/-- Embeds `BlockchainService.verify_certificate_hash`. The `try` body cannot raise,
so the `except` branch is unreachable and not modelled. -/
def verify_certificate_hash (cfg : Config) (certificate_hash : Str) : VerifyResult :=
  if !(truthy cfg.infura_api_key) then
    { verified := false
      tx_hash := none
      block_number := none
      message := none
      error := some "Blockchain service not configured".data }
  else
    let is_verified := simulate_blockchain_verification certificate_hash
    { verified := is_verified
      tx_hash := if is_verified then some (generate_mock_tx_hash cfg.secret_key certificate_hash 1)
                 else none
      block_number := if is_verified then some 12345678 else none
      message := some (if is_verified then "Certificate verified on blockchain".data
                       else "Certificate not found on blockchain".data)
      error := none }

/-- Embeds the module-level convenience function `store_certificate_on_blockchain`,
which delegates to the singleton service (here: its captured config). -/
def store_certificate_on_blockchain (cfg : Config) (certificate_hash : Str)
    (institution_id : Int) : StoreResult :=
  store_certificate_hash cfg certificate_hash institution_id

/-- Embeds the module-level convenience function `verify_certificate_on_blockchain`. -/
def verify_certificate_on_blockchain (cfg : Config) (certificate_hash : Str) : VerifyResult :=
  verify_certificate_hash cfg certificate_hash

/-- One run of the store operation with explicit service state: the method reads
but never mutates the service's configuration, so the state it returns is unchanged. -/
def store_run (cfg : Config) (certificate_hash : Str) (institution_id : Int) :
    StoreResult × Config :=
  (store_certificate_hash cfg certificate_hash institution_id, cfg)

/-- The spec's validity invariant for a content hash: non-empty, fixed length 64,
all hexadecimal characters (a 256-bit hex digest). -/
def isHexChar (c : Char) : Bool := "0123456789abcdef".data.contains c

/-- A valid content hash per the spec: exactly 64 lowercase hex characters. -/
def isValidContentHash (s : Str) : Bool := s.length == 64 && s.all isHexChar

/-- Unfolding of `hexdigestL` on a cons. -/
theorem hexdigestL_cons (b : Nat) (l : List Nat) :
    hexdigestL (b :: l) = byteToHex b ++ hexdigestL l := by
  simp [hexdigestL]

/-- The hex digest has two characters per byte. -/
theorem hexdigestL_length (bs : List Nat) : (hexdigestL bs).length = 2 * bs.length := by
  induction bs with
  | nil => rfl
  | cons b l ih =>
    rw [hexdigestL_cons, List.length_append, ih]
    simp [byteToHex]
    omega

/-- Every hex digit produced from a value below 16 is a hexadecimal character. -/
theorem hexDigitChar_hex : ∀ n < 16, isHexChar (hexDigitChar n) = true := by decide

/-- Both characters of a byte's hex encoding are hexadecimal. -/
theorem byteToHex_hex (b : Nat) (c : Char) (hc : c ∈ byteToHex b) : isHexChar c = true := by
  simp [byteToHex] at hc
  rcases hc with rfl | rfl
  · exact hexDigitChar_hex _ (Nat.mod_lt _ (by norm_num))
  · exact hexDigitChar_hex _ (Nat.mod_lt _ (by norm_num))

/-- Every character of a hex digest is hexadecimal. -/
theorem hexdigestL_hex (bs : List Nat) (c : Char) (hc : c ∈ hexdigestL bs) :
    isHexChar c = true := by
  induction bs with
  | nil => simp [hexdigestL] at hc
  | cons b l ih =>
    rw [hexdigestL_cons] at hc
    rcases List.mem_append.mp hc with h | h
    · exact byteToHex_hex b c h
    · exact ih h

/-- A SHA-256 digest is always 32 bytes long. -/
theorem sha256_length (msg : List Nat) : (sha256 msg).length = 32 := by
  simp [sha256, stateBytes, wordBytes]

/-- Shape of every mock transaction hash: `0x` followed by exactly 40 hex characters. -/
theorem generate_mock_tx_hash_shape (secret : Option Str) (cert : Str) (i : Int) :
    ∃ cs : List Char, generate_mock_tx_hash secret cert i = '0' :: 'x' :: cs ∧
      cs.length = 40 ∧ ∀ c ∈ cs, isHexChar c = true := by
  refine ⟨_, rfl, ?_, ?_⟩
  · rw [List.append_eq, List.nil_append, List.length_take, hexdigestL_length, sha256_length]
    norm_num
  · intro c hc
    rw [List.append_eq, List.nil_append] at hc
    exact hexdigestL_hex _ c (List.take_subset _ _ hc)

/-- A string that starts with `a` is non-empty. -/
theorem startswith_a_ne_nil (s : Str) (h : startswith s "a".data = true) : s ≠ [] := by
  intro he
  rw [he] at h
  exact absurd h (by decide)


/-- C1: the claim that verification returns verified=false for every never-submitted
hash fails on the code: the stub keeps no record store at all, so neither "abc" nor
"bcd" was ever submitted, yet with the service configured the verdict is true for
"abc" and false for "bcd" — it is derived solely from the textual 'a' prefix. -/
theorem C1_prefix_verdict_eval :
    (verify_certificate_on_blockchain (Config.mk (some "key".data) none) "abc".data).verified
      = true ∧
    (verify_certificate_on_blockchain (Config.mk (some "key".data) none) "bcd".data).verified
      = false :=
  ⟨rfl, rfl⟩

/-- C2: with the service configured, the verification operation reports verified=true
for every hash whose first character is 'a', regardless of whether it was ever stored
(the stub stores nothing). -/
theorem C2_verify_true_for_a_prefixed (cfg : Config) (h : Str)
    (hconf : truthy cfg.infura_api_key = true)
    (ha : startswith h "a".data = true) :
    (verify_certificate_hash cfg h).verified = true := by
  have hne : h ≠ [] := startswith_a_ne_nil h ha
  have hlen : decide (h.length > 0) = true := by
    simp [List.length_pos]
    exact hne
  simp [verify_certificate_hash, hconf, simulate_blockchain_verification, hlen, ha]

/-- C2 witness: a concrete configured service and the never-stored hash "a3f1". -/
theorem C2_witness :
    truthy (Config.mk (some "key".data) none).infura_api_key = true ∧
    startswith "a3f1".data "a".data = true ∧
    (verify_certificate_hash (Config.mk (some "key".data) none) "a3f1".data).verified = true :=
  ⟨by decide, by decide, C2_verify_true_for_a_prefixed _ _ (by decide) (by decide)⟩

/-- C3: idempotence: for a valid content hash, running the anchoring operation a
second time with the same arguments yields the very same record, and the first run
leaves the service state unchanged, so re-submission is a no-op returning the
existing record (the stub is stateless and deterministic for a fixed environment). -/
theorem C3_store_idempotent (cfg : Config) (h : Str) (i : Int)
    (_hv : isValidContentHash h = true) :
    (store_run cfg h i).2 = cfg ∧
    (store_run (store_run cfg h i).2 h i).1 = (store_run cfg h i).1 :=
  ⟨rfl, rfl⟩

/-- C3 witness: the valid 64-hex hash of 64 'a' characters with institution id 7. -/
theorem C3_witness :
    isValidContentHash (List.replicate 64 'a') = true ∧
    ((store_run (Config.mk (some "key".data) (some "s".data)) (List.replicate 64 'a') 7).2 =
        Config.mk (some "key".data) (some "s".data) ∧
      (store_run (store_run (Config.mk (some "key".data) (some "s".data))
          (List.replicate 64 'a') 7).2 (List.replicate 64 'a') 7).1 =
        (store_run (Config.mk (some "key".data) (some "s".data)) (List.replicate 64 'a') 7).1) :=
  ⟨by decide, C3_store_idempotent _ _ _ (by decide)⟩

/-- C4: with INFURA_API_KEY absent, any anchoring request returns immediately with a
configuration error: success=false, the transaction id is null, and no other result
field is set — there is no retry and no record (the function returns at once). -/
theorem C4_unconfigured_store (secret : Option Str) (h : Str) (i : Int) :
    store_certificate_hash (Config.mk none secret) h i =
      { success := false, tx_hash := none, block_number := none, gas_used := none,
        message := none,
        error := some "Blockchain service not configured. INFURA_API_KEY is missing.".data } :=
  rfl

/-- C5: the claim that malformed content hashes are rejected with a validation error
fails on the code: "zz" is not a valid 64-hex content hash, yet the configured
anchoring operation performs no validation and reports success for it. -/
theorem C5_no_validation_eval :
    isValidContentHash "zz".data = false ∧
    (store_certificate_hash (Config.mk (some "key".data) none) "zz".data 1).success = true :=
  ⟨by decide, rfl⟩

/-- C6: the claim that verification succeeds after anchoring any valid 64-hex hash
fails on the code: the hash of 64 'b' characters is valid and anchors successfully,
yet verification on it returns verified=false with null transaction id, because the
verdict comes from the 'a'-prefix rule, not from anchored state. -/
theorem C6_anchored_but_unverified_eval :
    isValidContentHash (List.replicate 64 'b') = true ∧
    (store_certificate_hash (Config.mk (some "key".data) none)
      (List.replicate 64 'b') 7).success = true ∧
    (verify_certificate_hash (Config.mk (some "key".data) none)
      (List.replicate 64 'b')).verified = false ∧
    (verify_certificate_hash (Config.mk (some "key".data) none)
      (List.replicate 64 'b')).tx_hash = none :=
  ⟨by decide, rfl, by decide, by decide⟩

/-- C7: the fabricated transaction hashes are deterministic: with a fixed
configuration (same SECRET_KEY), a second run of the anchoring operation returns the
same transaction hash as the first, and that hash is exactly a local SHA-256 digest
of certificate hash, institution id and secret — no network or signing input. -/
theorem C7_mock_tx_hash_deterministic (cfg : Config) (h : Str) (i : Int)
    (hconf : truthy cfg.infura_api_key = true) :
    (store_run (store_run cfg h i).2 h i).1.tx_hash = (store_run cfg h i).1.tx_hash ∧
    (store_run cfg h i).1.tx_hash = some ("0x".data ++
      (hexdigestL (sha256 (utf8Encode (h ++ "_".data ++ (toString i).data ++ "_".data ++
        cfg.secret_key.getD "default".data)))).take 40) := by
  refine ⟨rfl, ?_⟩
  simp [store_run, store_certificate_hash, hconf, generate_mock_tx_hash]

/-- C7 witness: a concrete configured service with SECRET_KEY "sekrit". -/
theorem C7_witness :
    truthy (Config.mk (some "key".data) (some "sekrit".data)).infura_api_key = true ∧
    ((store_run (store_run (Config.mk (some "key".data) (some "sekrit".data)) "a3f1".data 7).2
        "a3f1".data 7).1.tx_hash =
      (store_run (Config.mk (some "key".data) (some "sekrit".data)) "a3f1".data 7).1.tx_hash ∧
     (store_run (Config.mk (some "key".data) (some "sekrit".data)) "a3f1".data 7).1.tx_hash =
      some ("0x".data ++ (hexdigestL (sha256 (utf8Encode ("a3f1".data ++ "_".data ++
        (toString (7 : Int)).data ++ "_".data ++
        (Config.mk (some "key".data) (some "sekrit".data)).secret_key.getD
          "default".data)))).take 40)) :=
  ⟨by decide, C7_mock_tx_hash_deterministic _ _ _ (by decide)⟩

/-- C8: with the service configured, verifying the empty string returns
verified=false, a null transaction id and block number, and the message
'Certificate not found on blockchain'. -/
theorem C8_empty_hash_not_verified (cfg : Config)
    (hconf : truthy cfg.infura_api_key = true) :
    verify_certificate_hash cfg [] =
      { verified := false, tx_hash := none, block_number := none,
        message := some "Certificate not found on blockchain".data, error := none } := by
  simp [verify_certificate_hash, hconf, simulate_blockchain_verification]

/-- C8 witness: a concrete configured service. -/
theorem C8_witness :
    truthy (Config.mk (some "key".data) none).infura_api_key = true ∧
    verify_certificate_hash (Config.mk (some "key".data) none) [] =
      { verified := false, tx_hash := none, block_number := none,
        message := some "Certificate not found on blockchain".data, error := none } :=
  ⟨by decide, C8_empty_hash_not_verified _ (by decide)⟩

/-- C9: with the service configured, anchoring succeeds for every input string and
institution id with no validation: success=true, the constant block number 12345678
and gas 21000, and a transaction hash of '0x' followed by exactly 40 hex characters. -/
theorem C9_store_always_succeeds (cfg : Config) (h : Str) (i : Int)
    (hconf : truthy cfg.infura_api_key = true) :
    (store_certificate_hash cfg h i).success = true ∧
    (store_certificate_hash cfg h i).block_number = some 12345678 ∧
    (store_certificate_hash cfg h i).gas_used = some 21000 ∧
    ∃ cs : List Char, (store_certificate_hash cfg h i).tx_hash = some ('0' :: 'x' :: cs) ∧
      cs.length = 40 ∧ ∀ c ∈ cs, isHexChar c = true := by
  obtain ⟨cs, he, hl, hh⟩ := generate_mock_tx_hash_shape cfg.secret_key h i
  refine ⟨?_, ?_, ?_, cs, ?_, hl, hh⟩ <;>
    simp [store_certificate_hash, hconf, he]

/-- C9 witness: a concrete configured service and the non-hex input "not a hash". -/
theorem C9_witness :
    truthy (Config.mk (some "key".data) none).infura_api_key = true ∧
    ((store_certificate_hash (Config.mk (some "key".data) none)
        "not a hash".data 3).success = true ∧
     (store_certificate_hash (Config.mk (some "key".data) none)
        "not a hash".data 3).block_number = some 12345678 ∧
     (store_certificate_hash (Config.mk (some "key".data) none)
        "not a hash".data 3).gas_used = some 21000 ∧
     ∃ cs : List Char,
       (store_certificate_hash (Config.mk (some "key".data) none)
          "not a hash".data 3).tx_hash = some ('0' :: 'x' :: cs) ∧
       cs.length = 40 ∧ ∀ c ∈ cs, isHexChar c = true) :=
  ⟨by decide, C9_store_always_succeeds _ _ _ (by decide)⟩

/-- C10: both public operations are total functions of their inputs, and every
failure is reported in the returned value: a store result has success=true or
carries an error message, and a verify result has verified=true or carries an error
or an explanatory message — no exception escapes. -/
theorem C10_total_failures_as_values (cfg : Config) (h : Str) (i : Int) :
    ((store_certificate_hash cfg h i).success = true ∨
     (store_certificate_hash cfg h i).error.isSome = true) ∧
    ((verify_certificate_hash cfg h).verified = true ∨
     (verify_certificate_hash cfg h).error.isSome = true ∨
     (verify_certificate_hash cfg h).message.isSome = true) := by
  constructor
  · by_cases hc : truthy cfg.infura_api_key <;>
      simp [store_certificate_hash, hc]
  · by_cases hc : truthy cfg.infura_api_key <;>
      simp [verify_certificate_hash, hc]
